import Mathlib

/-! Shallow embedding of the hypatia engine core (player.py, tile.py):
the movement resolver of HumanPlayer.move, the NPC activation property,
and Tile with its flag predicates and per-frame update.
Rationals model Python floats; pygame rectangles carry integer fields. -/

namespace Hypatia

/-- Python int() conversion on a rational: truncation toward zero.
pygame.Rect applies the same conversion to float coordinates. -/
def pyInt (q : ℚ) : ℤ := if 0 ≤ q then ⌊q⌋ else ⌈q⌉

/-- A pygame.Rect: integer topleft corner plus width and height. -/
structure Rect where
  x : ℤ
  y : ℤ
  w : ℤ
  h : ℤ
deriving DecidableEq

def Rect.right (r : Rect) : ℤ := r.x + r.w

def Rect.bottom (r : Rect) : ℤ := r.y + r.h

/-- pygame Rect.union: the smallest rectangle covering both arguments. -/
def Rect.union (a b : Rect) : Rect :=
  ⟨min a.x b.x, min a.y b.y,
   max a.right b.right - min a.x b.x,
   max a.bottom b.bottom - min a.y b.y⟩

/-- pygame colliderect: strict overlap of the two half-open pixel regions. -/
def Rect.overlaps (a b : Rect) : Bool :=
  decide (a.x < b.right) && decide (b.x < a.right) &&
  decide (a.y < b.bottom) && decide (b.y < a.bottom)

/-- The four cardinal directions of hypatia.constants.Direction. -/
inductive Direction
  | north
  | east
  | south
  | west
deriving DecidableEq

/-- The two actions of hypatia.constants.Action used by HumanPlayer.move. -/
inductive Action
  | walk
  | stand
deriving DecidableEq

/-- The mutable fields of the walkabout sprite that HumanPlayer.move
reads and writes. -/
structure Walkabout where
  topleft_float : ℚ × ℚ
  rect : Rect
  size : ℤ × ℤ
  direction : Direction
  action : Action

/-- External collaborators of HumanPlayer.move: the collision predicate
game.scene.collide_check, the elapsed time of game.screen, the actor
velocity, and the largest_frame_size of the current animation. -/
structure MoveEnv where
  collide_check : Rect → Bool
  time_elapsed_milliseconds : ℚ
  velocity : ℚ × ℚ
  largest_frame_size : ℤ × ℤ

/-- Offset the floating topleft along the signed axis of a direction,
as the four branches of HumanPlayer.move do. -/
def stepOffset (dir : Direction) (p : ℚ × ℚ) (amount : ℚ) : ℚ × ℚ :=
  match dir with
  | .north => (p.1, p.2 - amount)
  | .east => (p.1 + amount, p.2)
  | .south => (p.1, p.2 + amount)
  | .west => (p.1 - amount, p.2)

/-- pygame.Rect((x, y), size): float coordinates truncate toward zero. -/
def mkDestRect (p : ℚ × ℚ) (size : ℤ × ℤ) : Rect :=
  ⟨pyInt p.1, pyInt p.2, size.1, size.2⟩

/-- The planned movement in pixels of HumanPlayer.move: the y velocity for
north and south, the x velocity otherwise. -/
def plannedPixels (env : MoveEnv) (dir : Direction) : ℚ :=
  match dir with
  | .north | .south => env.velocity.2
  | .east | .west => env.velocity.1

/-- The candidate loop of HumanPlayer.move over the remaining pixel counts,
threading adj_speed because the pixels == 2 branch reassigns it for all
later iterations as well. -/
def moveLoop (env : MoveEnv) (dir : Direction) (w : Walkabout) :
    List ℕ → ℚ → Bool × Walkabout
  | [], _ => (false, { w with action := .stand })
  | pixels :: rest, adj_speed =>
    let adj := if pixels = 2 then 1 else adj_speed
    let newtl := stepOffset dir w.topleft_float ((pixels : ℚ) * adj)
    let destination_rect := mkDestRect newtl w.size
    let collision_rect := w.rect.union destination_rect
    if env.collide_check collision_rect then
      moveLoop env dir w rest adj
    else
      (true, { w with action := .walk, size := env.largest_frame_size,
                      rect := destination_rect, topleft_float := newtl })

/-- The list n, n-1, ..., 1, as range(n, 0, -1) produces. -/
def countdown : ℕ → List ℕ
  | 0 => []
  | n + 1 => (n + 1) :: countdown n

/-- The candidate pixel counts tried by HumanPlayer.move:
max(1, int(planned)) counting down to 1. -/
def candidates (env : MoveEnv) (dir : Direction) : List ℕ :=
  countdown (max 1 (pyInt (plannedPixels env dir))).toNat

/-- HumanPlayer.move: record the direction, derive the planned pixel count
from the velocity, convert elapsed milliseconds to a speed factor, and run
the degrading candidate search. Returns the moved flag and the new state. -/
def move (w : Walkabout) (env : MoveEnv) (dir : Direction) : Bool × Walkabout :=
  let w := { w with direction := dir }
  let adj_speed := env.time_elapsed_milliseconds / 1000
  moveLoop env dir w (candidates env dir) adj_speed

/-- The scene collision check modelled as: does the rectangle overlap any
solid tile rectangle in the list. -/
def collideTiles (tiles : List Rect) (r : Rect) : Bool :=
  tiles.any fun t => t.overlaps r

/-- The union rectangles HumanPlayer.move would test, in order, were no
candidate to succeed; mirrors moveLoop including the sticky adj_speed. -/
def moveUnionsLoop (env : MoveEnv) (dir : Direction) (w : Walkabout) :
    List ℕ → ℚ → List Rect
  | [], _ => []
  | pixels :: rest, adj_speed =>
    let adj := if pixels = 2 then 1 else adj_speed
    let newtl := stepOffset dir w.topleft_float ((pixels : ℚ) * adj)
    let destination_rect := mkDestRect newtl w.size
    let collision_rect := w.rect.union destination_rect
    collision_rect :: moveUnionsLoop env dir w rest adj

/-- All union rectangles a fully blocked call of HumanPlayer.move tests. -/
def moveUnions (w : Walkabout) (env : MoveEnv) (dir : Direction) : List Rect :=
  moveUnionsLoop env dir { w with direction := dir } (candidates env dir)
    (env.time_elapsed_milliseconds / 1000)

/-- A rectangle t lies strictly between the start rectangle s and the
destination rectangle d along the movement axis, is nonempty, and crosses
the sweep band of s on the other axis. -/
def strictlyBetween (dir : Direction) (s d t : Rect) : Bool :=
  decide (0 < t.w) && decide (0 < t.h) &&
  (match dir with
   | .east => decide (s.right ≤ t.x) && decide (t.right ≤ d.x) &&
       decide (s.y < t.bottom) && decide (t.y < s.bottom)
   | .west => decide (d.right ≤ t.x) && decide (t.right ≤ s.x) &&
       decide (s.y < t.bottom) && decide (t.y < s.bottom)
   | .south => decide (s.bottom ≤ t.y) && decide (t.bottom ≤ d.y) &&
       decide (s.x < t.right) && decide (t.x < s.right)
   | .north => decide (d.bottom ≤ t.y) && decide (t.bottom ≤ s.y) &&
       decide (s.x < t.right) && decide (t.x < s.right))

/-- A Python value assigned to the NPC active property: a boolean or any
other object, the latter tagged by a natural number. -/
inductive PyVal
  | pybool (b : Bool)
  | pyother (n : ℕ)
deriving DecidableEq

/-- The observable NPC state: the stored _active attribute plus counters of
how often on_activation and on_deactivation have been invoked. -/
structure NPCState where
  _active : PyVal
  activation_calls : ℕ
  deactivation_calls : ℕ
deriving DecidableEq

/-- NPC.__init__ sets _active to False. -/
def NPC.init : NPCState := ⟨.pybool false, 0, 0⟩

/-- The active property getter: returns _active. -/
def NPC.active (s : NPCState) : PyVal := s._active

/-- The active property setter: stores the status first, then dispatches on
it; non-boolean status raises ValueError (the returned flag) after the
store has already happened. -/
def NPC.setActive (s : NPCState) (status : PyVal) : NPCState × Bool :=
  let s := { s with _active := status }
  match status with
  | .pybool true => ({ s with activation_calls := s.activation_calls + 1 }, false)
  | .pybool false => ({ s with deactivation_calls := s.deactivation_calls + 1 }, false)
  | .pyother _ => (s, true)

/-- A pygame surface, abstracted to its size and an identity tag. -/
structure Image where
  width : ℤ
  height : ℤ
  tag : ℤ
deriving DecidableEq

/-- Surface.get_rect: a rectangle at the origin with the image size. -/
def Image.get_rect (i : Image) : Rect := ⟨0, 0, i.width, i.height⟩

/-- The external tilesheet: tile dimensions and the sub-image lookup. -/
structure Tilesheet where
  tile_width : ℤ
  tile_height : ℤ
  get_tile_subsurface : ℤ → Image

/-- TileFlags.NONE bit value from tile.py. -/
def TileFlags.NONE : ℕ := 0

/-- TileFlags.SOLID bit value from tile.py. -/
def TileFlags.SOLID : ℕ := 1

/-- TileFlags.DESTRUCTIBLE bit value from tile.py. -/
def TileFlags.DESTRUCTIBLE : ℕ := 2

/-- TileFlags.ANIMATED bit value from tile.py. -/
def TileFlags.ANIMATED : ℕ := 4

/-- Python IntFlag membership: flag in flags tests flags and flag == flag. -/
def flagIn (f flags : ℕ) : Bool := decide (flags &&& f = f)

/-- A tile, parameterized over the state type of its animation clock. -/
structure Tile (σ : Type) where
  tilesheet : Tilesheet
  tile_id : ℤ
  tile_flags : ℕ
  image : Image
  rect : Rect
  animatedsprite : σ

/-- The interface of the AnimatedSprite clock as Tile.update uses it:
advance by a time delta and read the current image. -/
structure ClockOps (σ : Type) where
  advance : σ → ℚ → σ
  image : σ → Image

def Tile.is_solid {σ : Type} (t : Tile σ) : Bool :=
  flagIn TileFlags.SOLID t.tile_flags

def Tile.is_destructible {σ : Type} (t : Tile σ) : Bool :=
  flagIn TileFlags.DESTRUCTIBLE t.tile_flags

def Tile.is_animated {σ : Type} (t : Tile σ) : Bool :=
  flagIn TileFlags.ANIMATED t.tile_flags

/-- Tile.update: skip blank tiles (tile_id == -1); otherwise either advance
the animation clock and take its image, or take the static sub-image at
tile_id; in both live branches refresh rect from the new image. -/
def Tile.update {σ : Type} (ops : ClockOps σ) (t : Tile σ) (timedelta : ℚ) :
    Tile σ :=
  if t.tile_id ≠ -1 then
    if t.is_animated then
      let sp := ops.advance t.animatedsprite timedelta
      let img := ops.image sp
      { t with animatedsprite := sp, image := img, rect := img.get_rect }
    else
      let img := t.tilesheet.get_tile_subsurface t.tile_id
      { t with image := img, rect := img.get_rect }
  else
    t

/-- A 16 by 16 actor at the origin, facing north, standing. -/
def w1 : Walkabout := ⟨(0, 0), ⟨0, 0, 16, 16⟩, (16, 16), .north, .stand⟩

/-- Velocity 5 east, one full second elapsed, a solid tile far away,
a larger largest frame size so the committed size visibly changes. -/
def env1 : MoveEnv := ⟨collideTiles [⟨-100, -100, 16, 16⟩], 1000, (5, 0), (32, 32)⟩

/-- A 16 by 16 actor at the origin for the speed clamp scenarios. -/
def c3w : Walkabout := ⟨(0, 0), ⟨0, 0, 16, 16⟩, (16, 16), .north, .stand⟩

/-- Velocity 3 east with 900 ms elapsed and a solid tile at x = 17:
the 3 and 2 pixel candidates are blocked, the 1 pixel candidate commits. -/
def c3env : MoveEnv := ⟨collideTiles [⟨17, 0, 16, 16⟩], 900, (3, 0), (16, 16)⟩

/-- Velocity 1 east with 500 ms elapsed and no solid tiles, so the single
candidate is the 1-pixel one and the real speed factor applies. -/
def cAenv : MoveEnv := ⟨collideTiles [], 500, (1, 0), (16, 16)⟩

/-- The spec scenario actor: 16 by 16 at position (100, 100). -/
def c4w : Walkabout := ⟨(100, 100), ⟨100, 100, 16, 16⟩, (16, 16), .north, .stand⟩

/-- The spec scenario: velocity 2 east with the solid pixel region
starting at x = 108, which already overlaps the actor. -/
def c4env : MoveEnv := ⟨collideTiles [⟨108, 100, 16, 16⟩], 1000, (2, 0), (16, 16)⟩

/-- Negative planned movement, for the candidate clamping witness. -/
def c5env : MoveEnv := ⟨collideTiles [], 16, (-3, 0), (16, 16)⟩

/-- A collision predicate that blocks every rectangle: an immovable wall. -/
def c6env : MoveEnv := ⟨fun _ => true, 16, (3, 2), (16, 16)⟩

/-- A concrete tilesheet whose sub-images are tagged by their tile id. -/
def ts0 : Tilesheet := ⟨16, 16, fun i => ⟨16, 16, i⟩⟩

/-- A concrete animation clock over ℕ states: advancing increments the
state, the image is tagged by the state. -/
def ops0 : ClockOps ℕ := ⟨fun s _ => s + 1, fun s => ⟨8, 8, (s : ℤ)⟩⟩

/-- A blank solid tile: tile_id is -1 with the SOLID flag set. -/
def blankTile : Tile ℕ := ⟨ts0, -1, TileFlags.SOLID, ⟨16, 16, 0⟩, ⟨0, 0, 16, 16⟩, 0⟩

/-- A non-blank tile with the same flags as blankTile. -/
def blankTile2 : Tile ℕ := ⟨ts0, 7, TileFlags.SOLID, ⟨16, 16, 0⟩, ⟨0, 0, 16, 16⟩, 0⟩

/-- An animated tile at tile_id 3. -/
def animTile : Tile ℕ := ⟨ts0, 3, TileFlags.ANIMATED, ⟨16, 16, 0⟩, ⟨0, 0, 16, 16⟩, 0⟩

/-- A static, flagless tile at tile_id 3. -/
def statTile : Tile ℕ := ⟨ts0, 3, TileFlags.NONE, ⟨16, 16, 0⟩, ⟨0, 0, 16, 16⟩, 0⟩

/-- Every run of the candidate loop either fails leaving the state intact
except action := stand, or commits some tentative topleft whose union with
the current rectangle passed the collision check. -/
theorem moveLoop_shape (env : MoveEnv) (dir : Direction) (w : Walkabout) :
    ∀ (l : List ℕ) (adj : ℚ),
      moveLoop env dir w l adj = (false, { w with action := .stand }) ∨
      ∃ newtl : ℚ × ℚ,
        env.collide_check (w.rect.union (mkDestRect newtl w.size)) = false ∧
        moveLoop env dir w l adj =
          (true, { w with action := .walk, size := env.largest_frame_size,
                          rect := mkDestRect newtl w.size, topleft_float := newtl }) := by
  intro l
  induction l with
  | nil => intro adj; left; rfl
  | cons p rest ih =>
    intro adj
    rw [moveLoop]
    split <;> split
    · exact ih _
    · rename_i hc
      right
      refine ⟨_, ?_, rfl⟩
      simpa using hc
    · exact ih _
    · rename_i hc
      right
      refine ⟨_, ?_, rfl⟩
      simpa using hc

/-- Membership in countdown n is exactly the interval from 1 to n. -/
theorem countdown_mem : ∀ (n k : ℕ), k ∈ countdown n ↔ 1 ≤ k ∧ k ≤ n := by
  intro n
  induction n with
  | zero => intro k; simp [countdown]; omega
  | succ m ih => intro k; simp [countdown, ih]; omega

/-- countdown n is strictly decreasing. -/
theorem countdown_pairwise : ∀ n : ℕ, List.Pairwise (fun a b => b < a) (countdown n) := by
  intro n
  induction n with
  | zero => exact List.Pairwise.nil
  | succ m ih =>
    refine List.pairwise_cons.mpr ⟨?_, ih⟩
    intro a ha
    exact Nat.lt_succ_of_le ((countdown_mem m a).mp ha).2

/-- Under the clamp to at least 1, Python truncation agrees with floor. -/
theorem pyInt_max_one_eq_floor (q : ℚ) : max 1 (pyInt q) = max 1 ⌊q⌋ := by
  by_cases hq : 0 ≤ q
  · simp [pyInt, hq]
  · have h1 : ⌈q⌉ ≤ 0 := Int.ceil_le.mpr (by exact_mod_cast le_of_not_le hq)
    have h2 : ⌊q⌋ ≤ 0 := Int.floor_nonpos (le_of_not_le hq)
    simp only [pyInt, hq, if_neg, ite_false]
    omega

/-- Python truncation of a nonpositive rational is nonpositive. -/
theorem pyInt_nonpos_of_nonpos (q : ℚ) (hq : q ≤ 0) : pyInt q ≤ 0 := by
  by_cases h0 : 0 ≤ q
  · have : q = 0 := le_antisymm hq h0
    simp [pyInt, this]
  · simp only [pyInt, h0, ite_false]
    exact Int.ceil_le.mpr (by exact_mod_cast hq)

/-- A nonempty rectangle strictly between two nondegenerate rectangles
along the movement axis overlaps their union. -/
theorem strictlyBetween_overlaps_union (dir : Direction) (s d t : Rect)
    (hsw : 0 ≤ s.w) (hsh : 0 ≤ s.h) (hdw : 0 ≤ d.w) (hdh : 0 ≤ d.h)
    (h : strictlyBetween dir s d t = true) : t.overlaps (s.union d) = true := by
  cases dir <;>
    simp only [strictlyBetween, Rect.overlaps, Rect.union, Rect.right, Rect.bottom,
      Bool.and_eq_true, decide_eq_true_eq] at h ⊢ <;>
    omega

/-- If every union rectangle in the trace is blocked, the loop fails and
only the action changes. -/
theorem moveLoop_all_blocked (env : MoveEnv) (dir : Direction) (w : Walkabout) :
    ∀ (l : List ℕ) (adj : ℚ),
      (∀ r ∈ moveUnionsLoop env dir w l adj, env.collide_check r = true) →
      moveLoop env dir w l adj = (false, { w with action := .stand }) := by
  intro l
  induction l with
  | nil => intro adj _; rfl
  | cons p rest ih =>
    intro adj hb
    rw [moveUnionsLoop] at hb
    rw [moveLoop]
    have hc := hb _ (List.mem_cons_self _ _)
    rw [if_pos hc]
    exact ih _ fun r hr => hb r (List.mem_cons_of_mem _ hr)

/-- The trace of tested unions only reads the position, rectangle and size
of the walkabout state. -/
theorem moveUnionsLoop_congr (env : MoveEnv) (dir : Direction) (w1 w2 : Walkabout)
    (h1 : w1.topleft_float = w2.topleft_float) (h2 : w1.rect = w2.rect)
    (h3 : w1.size = w2.size) :
    ∀ (l : List ℕ) (adj : ℚ),
      moveUnionsLoop env dir w1 l adj = moveUnionsLoop env dir w2 l adj := by
  intro l
  induction l with
  | nil => intro adj; rfl
  | cons p rest ih =>
    intro adj
    rw [moveUnionsLoop, moveUnionsLoop, h1, h2, h3, ih]

/-- Every rectangle the resolver tests is the union of the current
rectangle with a destination rectangle of the current size. -/
theorem moveUnionsLoop_is_union (env : MoveEnv) (dir : Direction) (w : Walkabout) :
    ∀ (l : List ℕ) (adj : ℚ), ∀ r ∈ moveUnionsLoop env dir w l adj,
      ∃ p : ℚ × ℚ, r = w.rect.union (mkDestRect p w.size) := by
  intro l
  induction l with
  | nil => intro adj r hr; simp [moveUnionsLoop] at hr
  | cons p rest ih =>
    intro adj r hr
    rw [moveUnionsLoop] at hr
    rcases List.mem_cons.mp hr with h | h
    · exact ⟨_, h⟩
    · exact ih _ r h

/-- HumanPlayer.move is the candidate loop started on the direction-updated
state with the elapsed-seconds speed factor. -/
theorem move_eq_moveLoop (w : Walkabout) (env : MoveEnv) (dir : Direction) :
    move w env dir = moveLoop env dir { w with direction := dir } (candidates env dir)
      (env.time_elapsed_milliseconds / 1000) := rfl

/-- Claim C1: every collision query of HumanPlayer.move tests the union of
the current rectangle and a tentative destination rectangle; whenever the
resolver commits and returns true, that union is collision free, so no
solid tile strictly between the start and the committed end rectangle
along the movement axis can have been crossed. -/
theorem move_tests_union_and_blocks_tunneling (w : Walkabout) (env : MoveEnv)
    (tiles : List Rect) (dir : Direction)
    (henv : env.collide_check = collideTiles tiles)
    (hsw : 0 ≤ w.rect.w) (hsh : 0 ≤ w.rect.h)
    (hw1 : 0 ≤ w.size.1) (hw2 : 0 ≤ w.size.2)
    (hmv : (move w env dir).1 = true) :
    (∀ r ∈ moveUnions w env dir, ∃ p : ℚ × ℚ, r = w.rect.union (mkDestRect p w.size)) ∧
    collideTiles tiles (w.rect.union (move w env dir).2.rect) = false ∧
    ∀ t ∈ tiles, strictlyBetween dir w.rect (move w env dir).2.rect t = false := by
  refine ⟨?_, ?_⟩
  · intro r hr
    obtain ⟨p, hp⟩ := moveUnionsLoop_is_union env dir { w with direction := dir }
      (candidates env dir) (env.time_elapsed_milliseconds / 1000) r hr
    exact ⟨p, hp⟩
  rw [move_eq_moveLoop] at hmv ⊢
  obtain h | ⟨newtl, hfree, heq⟩ :=
    moveLoop_shape env dir { w with direction := dir } (candidates env dir)
      (env.time_elapsed_milliseconds / 1000)
  · rw [h] at hmv
    simp at hmv
  · rw [heq]
    dsimp only
    have hfree2 : collideTiles tiles (w.rect.union (mkDestRect newtl w.size)) = false := by
      rw [← henv]
      exact hfree
    refine ⟨hfree2, ?_⟩
    intro t ht
    by_contra hbt
    rw [Bool.not_eq_false] at hbt
    have hov : t.overlaps (w.rect.union (mkDestRect newtl w.size)) = true :=
      strictlyBetween_overlaps_union dir w.rect (mkDestRect newtl w.size) t
        hsw hsh hw1 hw2 hbt
    have hcol : collideTiles tiles (w.rect.union (mkDestRect newtl w.size)) = true := by
      simp only [collideTiles, List.any_eq_true]
      exact ⟨t, ht, hov⟩
    rw [hcol] at hfree2
    exact absurd hfree2 (by simp)

/-- The committed free eastward move of w1 against a distant tile. -/
theorem move_w1_env1_commits : (move w1 env1 .east).1 = true := by
  norm_num [move, moveLoop, candidates, countdown, plannedPixels, pyInt, stepOffset,
    mkDestRect, Rect.union, Rect.overlaps, Rect.right, Rect.bottom, collideTiles,
    List.any, w1, env1]

/-- Witness for claim C1 at the concrete committed move of w1. -/
theorem move_tests_union_and_blocks_tunneling_witness :
    (∀ r ∈ moveUnions w1 env1 .east,
      ∃ p : ℚ × ℚ, r = w1.rect.union (mkDestRect p w1.size)) ∧
    collideTiles [⟨-100, -100, 16, 16⟩] (w1.rect.union (move w1 env1 .east).2.rect) = false ∧
    ∀ t ∈ [(⟨-100, -100, 16, 16⟩ : Rect)],
      strictlyBetween .east w1.rect (move w1 env1 .east).2.rect t = false :=
  move_tests_union_and_blocks_tunneling w1 env1 [⟨-100, -100, 16, 16⟩] .east rfl
    (by decide) (by decide) (by decide) (by decide) move_w1_env1_commits

/-- Claim C2: the active setter on a non-boolean does raise the error, but
it stores the invalid value into _active before raising, so reading active
after the failed assignment returns the assigned value, not the prior
state; no hook is invoked. Evaluates the setter at the failing input. -/
theorem npc_setter_mutates_before_raising :
    (NPC.setActive NPC.init (.pyother 0)).2 = true ∧
    NPC.active NPC.init = .pybool false ∧
    NPC.active (NPC.setActive NPC.init (.pyother 0)).1 = .pyother 0 ∧
    NPC.active (NPC.setActive NPC.init (.pyother 0)).1 ≠ NPC.active NPC.init ∧
    (NPC.setActive NPC.init (.pyother 0)).1.activation_calls = 0 ∧
    (NPC.setActive NPC.init (.pyother 0)).1.deactivation_calls = 0 := by
  decide

/-- Claim C3 counterexample: with velocity 3 east and 900 ms elapsed
against a tile at x = 17, the 1-pixel candidate commits with offset
1 * 1 = 1 rather than 1 * 0.9, because the clamp at candidate 2 already
reassigned the speed factor; the claim predicts a final x of 9 / 10. -/
theorem one_pixel_candidate_uses_clamped_factor_counterexample :
    (move c3w c3env .east).1 = true ∧
    (move c3w c3env .east).2.rect.x = 1 ∧
    (move c3w c3env .east).2.topleft_float.1 = 1 ∧
    c3w.topleft_float.1 + 1 * (c3env.time_elapsed_milliseconds / 1000) = 9 / 10 ∧
    (9 / 10 : ℚ) ≠ 1 := by
  norm_num [move, moveLoop, candidates, countdown, plannedPixels, pyInt, stepOffset,
    mkDestRect, Rect.union, Rect.overlaps, Rect.right, Rect.bottom, collideTiles,
    List.any, c3w, c3env]

/-- Claim C3 amended: the clamp at candidate 2 reassigns the speed factor,
so every candidate tried from 2 downward uses factor 1; a 1-pixel
candidate is offset by the real elapsed-seconds factor exactly when the
initial candidate count is 1, so that candidate 2 is never visited. -/
theorem speed_clamp_sticky_below_two (env : MoveEnv) (dir : Direction) (w : Walkabout) :
    (∀ (rest : List ℕ) (adj : ℚ),
      moveLoop env dir w (2 :: rest) adj = moveLoop env dir w (2 :: rest) 1) ∧
    (max 1 (pyInt (plannedPixels env dir)) = 1 → (move w env dir).1 = true →
      (move w env dir).2.topleft_float =
        stepOffset dir w.topleft_float (1 * (env.time_elapsed_milliseconds / 1000))) := by
  constructor
  · intro rest adj
    rfl
  · intro hmax hmv
    have hc : candidates env dir = [1] := by
      rw [candidates, hmax]
      rfl
    rw [move_eq_moveLoop, hc] at hmv ⊢
    rw [moveLoop] at hmv ⊢
    norm_num at hmv ⊢
    split at hmv
    · rename_i hcol
      rw [moveLoop] at hmv
      exact absurd hmv (by simp)
    · rename_i hcol
      rw [if_neg hcol]

/-- The committed free eastward single-pixel move of c3w. -/
theorem move_cAenv_commits : (move c3w cAenv .east).1 = true := by
  norm_num [move, moveLoop, candidates, countdown, plannedPixels, pyInt, stepOffset,
    mkDestRect, Rect.union, Rect.overlaps, Rect.right, Rect.bottom, collideTiles,
    List.any, c3w, cAenv]

/-- Witness for the amended claim C3: stickiness at a concrete factor, and
the real 500 ms factor applied when the only candidate is 1 pixel. -/
theorem speed_clamp_sticky_below_two_witness :
    moveLoop cAenv .east c3w [2] (7 / 10) = moveLoop cAenv .east c3w [2] 1 ∧
    (move c3w cAenv .east).2.topleft_float =
      stepOffset .east c3w.topleft_float (1 * (cAenv.time_elapsed_milliseconds / 1000)) :=
  ⟨(speed_clamp_sticky_below_two cAenv .east c3w).1 [] (7 / 10),
   (speed_clamp_sticky_below_two cAenv .east c3w).2
     (by norm_num [pyInt, plannedPixels, cAenv]) move_cAenv_commits⟩

/-- Claim C4 counterexample: in the spec scenario the resolver returns
false and leaves the actor at x = 100; it does not commit a 1-pixel step
to x = 101, because the solid region already overlaps the start. -/
theorem scenario_one_pixel_commit_counterexample :
    (move c4w c4env .east).1 = false ∧
    (move c4w c4env .east).2.topleft_float.1 = 100 ∧
    ¬((move c4w c4env .east).1 = true ∧ (move c4w c4env .east).2.topleft_float.1 = 101) := by
  norm_num [move, moveLoop, candidates, countdown, plannedPixels, pyInt, stepOffset,
    mkDestRect, Rect.union, Rect.overlaps, Rect.right, Rect.bottom, collideTiles,
    List.any, c4w, c4env]

/-- Claim C4 amended: the solid region of the scenario overlaps the
actor's current rectangle, so every tested union collides and the call
returns false with action stand and the position unchanged at x = 100. -/
theorem scenario_blocked_at_start :
    move c4w c4env .east = (false, { c4w with direction := .east, action := .stand }) ∧
    Rect.overlaps ⟨108, 100, 16, 16⟩ c4w.rect = true := by
  constructor
  · norm_num [move, moveLoop, candidates, countdown, plannedPixels, pyInt, stepOffset,
      mkDestRect, Rect.union, Rect.overlaps, Rect.right, Rect.bottom, collideTiles,
      List.any, c4w, c4env]
  · decide

/-- Claim C5: the candidate step counts are exactly max(1, floor(planned))
counting down to 1; the list is never empty, never contains 0, and
collapses to the single 1-pixel candidate when planned is nonpositive. -/
theorem move_candidate_steps (w : Walkabout) (env : MoveEnv) (dir : Direction) :
    move w env dir = moveLoop env dir { w with direction := dir } (candidates env dir)
      (env.time_elapsed_milliseconds / 1000) ∧
    (∀ k : ℕ, k ∈ candidates env dir ↔
      1 ≤ (k : ℤ) ∧ (k : ℤ) ≤ max 1 ⌊plannedPixels env dir⌋) ∧
    candidates env dir ≠ [] ∧
    (0 : ℕ) ∉ candidates env dir ∧
    List.Pairwise (fun a b => b < a) (candidates env dir) ∧
    (plannedPixels env dir ≤ 0 → candidates env dir = [1]) := by
  have hmax : max 1 (pyInt (plannedPixels env dir)) = max 1 ⌊plannedPixels env dir⌋ :=
    pyInt_max_one_eq_floor _
  have hone : 1 ≤ max 1 (pyInt (plannedPixels env dir)) := le_max_left _ _
  refine ⟨rfl, ?_, ?_, ?_, countdown_pairwise _, ?_⟩
  · intro k
    rw [candidates, countdown_mem]
    omega
  · rw [candidates]
    intro hnil
    have h1 : (1 : ℕ) ∈ countdown (max 1 (pyInt (plannedPixels env dir))).toNat := by
      rw [countdown_mem]
      omega
    rw [hnil] at h1
    exact absurd h1 (List.not_mem_nil 1)
  · rw [candidates, countdown_mem]
    omega
  · intro hq
    have h0 : pyInt (plannedPixels env dir) ≤ 0 := pyInt_nonpos_of_nonpos _ hq
    have h1 : (max 1 (pyInt (plannedPixels env dir))).toNat = 1 := by omega
    rw [candidates, h1]
    rfl

/-- Witness for claim C5 at a negative planned movement. -/
theorem move_candidate_steps_witness :
    candidates c5env .east = [1] ∧ candidates c5env .east ≠ [] ∧
    (0 : ℕ) ∉ candidates c5env .east :=
  have h := move_candidate_steps w1 c5env .east
  ⟨h.2.2.2.2.2 (by norm_num [plannedPixels, c5env]), h.2.2.1, h.2.2.2.1⟩

/-- Claim C6: when every tested union rectangle is blocked, move returns
false, sets action to stand, leaves position, rect and size unchanged,
and a repeated call on the resulting state returns the same result. -/
theorem move_all_blocked_stand_unchanged (w : Walkabout) (env : MoveEnv) (dir : Direction)
    (hb : ∀ r ∈ moveUnions w env dir, env.collide_check r = true) :
    move w env dir = (false, { w with direction := dir, action := .stand }) ∧
    (move w env dir).1 = false ∧
    (move w env dir).2.topleft_float = w.topleft_float ∧
    (move w env dir).2.rect = w.rect ∧
    (move w env dir).2.size = w.size ∧
    (move w env dir).2.action = .stand ∧
    move (move w env dir).2 env dir = move w env dir := by
  have h : move w env dir = (false, { w with direction := dir, action := .stand }) :=
    moveLoop_all_blocked env dir { w with direction := dir } (candidates env dir)
      (env.time_elapsed_milliseconds / 1000) hb
  refine ⟨h, ?_, ?_, ?_, ?_, ?_, ?_⟩
  · rw [h]
  · rw [h]
  · rw [h]
  · rw [h]
  · rw [h]
  · rw [h]
    have hb2 : ∀ r ∈ moveUnionsLoop env dir
        { ({ w with direction := dir, action := Action.stand } : Walkabout) with
          direction := dir }
        (candidates env dir) (env.time_elapsed_milliseconds / 1000),
        env.collide_check r = true := by
      intro r hr
      apply hb
      have hU : moveUnionsLoop env dir
          { ({ w with direction := dir, action := Action.stand } : Walkabout) with
            direction := dir }
          (candidates env dir) (env.time_elapsed_milliseconds / 1000)
          = moveUnionsLoop env dir { w with direction := dir } (candidates env dir)
            (env.time_elapsed_milliseconds / 1000) :=
        moveUnionsLoop_congr env dir
          { ({ w with direction := dir, action := Action.stand } : Walkabout) with
            direction := dir }
          { w with direction := dir } rfl rfl rfl (candidates env dir)
          (env.time_elapsed_milliseconds / 1000)
      show r ∈ moveUnionsLoop env dir { w with direction := dir } (candidates env dir)
        (env.time_elapsed_milliseconds / 1000)
      exact hU ▸ hr
    exact moveLoop_all_blocked env dir _ (candidates env dir) _ hb2

/-- Witness for claim C6 against the always-blocking collision check. -/
theorem move_all_blocked_stand_unchanged_witness :
    move w1 c6env .east = (false, { w1 with direction := .east, action := .stand }) ∧
    move (move w1 c6env .east).2 c6env .east = move w1 c6env .east :=
  have h := move_all_blocked_stand_unchanged w1 c6env .east (fun _ _ => rfl)
  ⟨h.1, h.2.2.2.2.2.2⟩

/-- Claim C7: assigning True to active always invokes on_activation
exactly once and assigning False always invokes on_deactivation exactly
once, with no error, regardless of the current stored value; two
consecutive True assignments invoke on_activation twice. -/
theorem npc_hooks_fire_on_every_boolean_assignment (s : NPCState) :
    (NPC.setActive s (.pybool true)).2 = false ∧
    (NPC.setActive s (.pybool true)).1.activation_calls = s.activation_calls + 1 ∧
    (NPC.setActive s (.pybool true)).1.deactivation_calls = s.deactivation_calls ∧
    (NPC.setActive s (.pybool false)).2 = false ∧
    (NPC.setActive s (.pybool false)).1.deactivation_calls = s.deactivation_calls + 1 ∧
    (NPC.setActive s (.pybool false)).1.activation_calls = s.activation_calls ∧
    (NPC.setActive (NPC.setActive s (.pybool true)).1 (.pybool true)).1.activation_calls
      = s.activation_calls + 2 ∧
    (NPC.setActive (NPC.setActive s (.pybool false)).1 (.pybool false)).1.deactivation_calls
      = s.deactivation_calls + 2 := by
  simp [NPC.setActive]

/-- Claim C8: Tile.update is the identity on blank tiles; on animated
tiles it advances the clock and refreshes image and rect from the clock
image; on static tiles it takes the tilesheet sub-image at tile_id. -/
theorem tile_update_contract {σ : Type} (ops : ClockOps σ) (t : Tile σ) (delta : ℚ) :
    (t.tile_id = -1 → Tile.update ops t delta = t) ∧
    (t.tile_id ≠ -1 → t.is_animated = true →
      Tile.update ops t delta =
        { t with animatedsprite := ops.advance t.animatedsprite delta,
                 image := ops.image (ops.advance t.animatedsprite delta),
                 rect := (ops.image (ops.advance t.animatedsprite delta)).get_rect }) ∧
    (t.tile_id ≠ -1 → t.is_animated = false →
      Tile.update ops t delta =
        { t with image := t.tilesheet.get_tile_subsurface t.tile_id,
                 rect := (t.tilesheet.get_tile_subsurface t.tile_id).get_rect }) := by
  refine ⟨?_, ?_, ?_⟩
  · intro h
    simp [Tile.update, h]
  · intro h ha
    simp [Tile.update, h, ha]
  · intro h ha
    simp [Tile.update, h, ha]

/-- Witness for claim C8 on concrete blank, animated and static tiles. -/
theorem tile_update_contract_witness :
    Tile.update ops0 blankTile 5 = blankTile ∧
    Tile.update ops0 animTile 5 =
      { animTile with animatedsprite := 1, image := ⟨8, 8, 1⟩, rect := ⟨0, 0, 8, 8⟩ } ∧
    Tile.update ops0 statTile 5 =
      { statTile with image := ⟨16, 16, 3⟩, rect := ⟨0, 0, 16, 16⟩ } :=
  ⟨(tile_update_contract ops0 blankTile 5).1 rfl,
   (tile_update_contract ops0 animTile 5).2.1 (by decide) rfl,
   (tile_update_contract ops0 statTile 5).2.2 (by decide) rfl⟩

/-- Claim C9: a committed move stores a rect built from the size held
before the commit, while the size field becomes the largest frame size of
the animation, so the two can afterwards disagree. -/
theorem move_commit_rect_premove_size (w : Walkabout) (env : MoveEnv) (dir : Direction)
    (hmv : (move w env dir).1 = true) :
    (move w env dir).2.rect.w = w.size.1 ∧
    (move w env dir).2.rect.h = w.size.2 ∧
    (move w env dir).2.size = env.largest_frame_size := by
  rw [move_eq_moveLoop] at hmv ⊢
  obtain h | ⟨newtl, hfree, heq⟩ :=
    moveLoop_shape env dir { w with direction := dir } (candidates env dir)
      (env.time_elapsed_milliseconds / 1000)
  · rw [h] at hmv
    simp at hmv
  · rw [heq]
    exact ⟨rfl, rfl, rfl⟩

/-- Witness for claim C9: after the committed move of w1 the rect keeps
the 16 by 16 pre-move size while the size field becomes 32 by 32. -/
theorem move_commit_rect_premove_size_witness :
    (move w1 env1 .east).2.rect.w = 16 ∧
    (move w1 env1 .east).2.rect.h = 16 ∧
    (move w1 env1 .east).2.size = ((32 : ℤ), (32 : ℤ)) ∧
    ((32 : ℤ), (32 : ℤ)) ≠ ((16 : ℤ), (16 : ℤ)) :=
  have h := move_commit_rect_premove_size w1 env1 .east move_w1_env1_commits
  ⟨h.1, h.2.1, h.2.2, by decide⟩

/-- Claim C10: the three flag predicates depend only on the flag set, so
they agree on any two tiles with equal flags; a blank tile whose flags
include SOLID still reports solid although update skips it. -/
theorem tile_flag_predicates_ignore_tile_id {σ σ2 : Type} (ops : ClockOps σ)
    (t1 : Tile σ) (t2 : Tile σ2) (hf : t1.tile_flags = t2.tile_flags) :
    (t1.is_solid = t2.is_solid ∧ t1.is_destructible = t2.is_destructible ∧
      t1.is_animated = t2.is_animated) ∧
    (t1.tile_id = -1 → flagIn TileFlags.SOLID t1.tile_flags = true →
      t1.is_solid = true ∧ ∀ delta : ℚ, Tile.update ops t1 delta = t1) := by
  refine ⟨⟨?_, ?_, ?_⟩, ?_⟩
  · simp [Tile.is_solid, hf]
  · simp [Tile.is_destructible, hf]
  · simp [Tile.is_animated, hf]
  · intro hid hs
    exact ⟨hs, fun delta => by simp [Tile.update, hid]⟩

/-- Witness for claim C10 on the blank solid tile against a non-blank tile
with identical flags. -/
theorem tile_flag_predicates_ignore_tile_id_witness :
    (blankTile.is_solid = blankTile2.is_solid ∧
      blankTile.is_destructible = blankTile2.is_destructible ∧
      blankTile.is_animated = blankTile2.is_animated) ∧
    blankTile.is_solid = true ∧
    Tile.update ops0 blankTile 5 = blankTile :=
  have h := tile_flag_predicates_ignore_tile_id ops0 blankTile blankTile2 rfl
  ⟨h.1, (h.2 rfl rfl).1, (h.2 rfl rfl).2 5⟩

end Hypatia
